import Mathlib

/-!
Shallow embedding of LuaSec 0.4.1 `src/context.c` (the SSL context
binding). Each Lua C function is modelled as a Lean function from the
relevant state and arguments to an updated state together with a
`LuaRes` recording what the C function pushes onto the Lua stack and
how many values it returns, or the Lua error it raises (`lua_error` /
`luaL_argerror`). OpenSSL calls that only write engine state are
modelled as pure updates of `SSLCtx`, following the engine interface
the binding relies on: `SSL_CTX_set_verify` replaces the verify mode,
`SSL_CTX_set_options` ORs new option bits into the existing ones, and
`SSL_CTX_set_session_cache_mode` replaces the cache mode. OpenSSL
calls whose outcome depends on the outside world (private key files)
take the outcome as an explicit argument. The protocol-option table
`ssl_options` lives in `options.h`; `set_option_flag` is therefore
parameterised by an arbitrary name-to-bit table.
-/

namespace LuaSecContext

/-- Constant from openssl/ssl.h. -/
def SSL_VERIFY_NONE : Nat := 0

/-- Constant from openssl/ssl.h. -/
def SSL_VERIFY_PEER : Nat := 1

/-- Constant from openssl/ssl.h. -/
def SSL_VERIFY_FAIL_IF_NO_PEER_CERT : Nat := 2

/-- Constant from openssl/ssl.h. -/
def SSL_VERIFY_CLIENT_ONCE : Nat := 4

/-- Constant from openssl/ssl.h. -/
def SSL_SESS_CACHE_OFF : Nat := 0

/-- Constant from openssl/ssl.h. -/
def SSL_SESS_CACHE_CLIENT : Nat := 1

/-- Constant from openssl/ssl.h. -/
def SSL_SESS_CACHE_SERVER : Nat := 2

/-- Constant from openssl/ssl.h, CLIENT ||| SERVER. -/
def SSL_SESS_CACHE_BOTH : Nat := 3

/-- Constant from openssl/ssl.h. -/
def SSL_SESS_CACHE_NO_AUTO_CLEAR : Nat := 128

/-- Constant from openssl/ssl.h. -/
def SSL_SESS_CACHE_NO_INTERNAL_LOOKUP : Nat := 256

/-- Constant from openssl/ssl.h. -/
def SSL_SESS_CACHE_NO_INTERNAL_STORE : Nat := 512

/-- Constant from openssl/ssl.h, NO_INTERNAL_LOOKUP ||| NO_INTERNAL_STORE. -/
def SSL_SESS_CACHE_NO_INTERNAL : Nat := 768

/-- A Lua value as far as this binding observes them. -/
inductive LuaVal where
  | nil
  | boolean (b : Bool)
  | str (s : String)
  | userdata
deriving DecidableEq

/-- Outcome of one Lua C function call: either a normal return recording
the values pushed on the stack (in push order) and the C return count,
or a raised Lua error (`lua_error` / `luaL_argerror`) with its message. -/
inductive LuaRes where
  | normal (pushed : List LuaVal) (nret : Nat)
  | raised (msg : String)
deriving DecidableEq

/-- The values the Lua caller actually receives: the top `nret` values of
the pushed list for a normal return, nothing for a raised error. -/
def LuaRes.retVals : LuaRes → Option (List LuaVal)
  | .normal pushed n => some (pushed.drop (pushed.length - n))
  | .raised _ => Option.none

/-- The engine-side `SSL_CTX` state this binding writes. -/
structure SSLCtx where
  verifyMode : Nat
  options : Nat
  sessionCacheMode : Nat
  passwdCbSet : Bool
deriving DecidableEq

/-- Engine model: `SSL_CTX_set_verify` replaces the verify mode. -/
def SSL_CTX_set_verify (c : SSLCtx) (flag : Nat) : SSLCtx :=
  { c with verifyMode := flag }

/-- Engine model: `SSL_CTX_set_options` ORs new bits into existing ones. -/
def SSL_CTX_set_options (c : SSLCtx) (flag : Nat) : SSLCtx :=
  { c with options := c.options ||| flag }

/-- Engine model: `SSL_CTX_set_session_cache_mode` replaces the mode. -/
def SSL_CTX_set_session_cache_mode (c : SSLCtx) (mode : Nat) : SSLCtx :=
  { c with sessionCacheMode := mode }

/-- A freshly created `SSL_CTX`: engine defaults are verify mode
`SSL_VERIFY_NONE`, no option bits, session cache mode
`SSL_SESS_CACHE_SERVER`, no password callback installed. -/
def freshSSLCtx : SSLCtx :=
  { verifyMode := SSL_VERIFY_NONE
    options := 0
    sessionCacheMode := SSL_SESS_CACHE_SERVER
    passwdCbSet := false }

/-- The `mode` field of `t_context` (context.h): MD_CTX_INVALID /
MD_CTX_SERVER / MD_CTX_CLIENT. -/
inductive CtxMode where
  | invalid
  | server
  | client
deriving DecidableEq

/-- The `t_context` userdata: the (possibly already freed) engine context
pointer and the auxiliary mode byte. -/
structure TContext where
  context : Option SSLCtx
  mode : CtxMode
deriving DecidableEq

/-- Engine-side allocation bookkeeping: how many `SSL_CTX_new` calls have
succeeded (used to state that failed `create` allocates nothing). -/
structure EngineState where
  allocCount : Nat
deriving DecidableEq

/-- The three OpenSSL method constructors `str2method` can return. -/
inductive SSLMethod where
  | sslv3
  | tlsv1
  | sslv23
deriving DecidableEq

/-- Translation of `str2method` (context.c lines 45-51). -/
def str2method (method : String) : Option SSLMethod :=
  if method = "sslv3" then some SSLMethod.sslv3
  else if method = "tlsv1" then some SSLMethod.tlsv1
  else if method = "sslv23" then some SSLMethod.sslv23
  else Option.none

/-- Translation of `create` (context.c lines 103-130). `allocOk` is the
outcome of the engine's `SSL_CTX_new` (false models out-of-memory).
Returns the engine allocation state, the created userdata (if any) and
the Lua-level result. -/
def create (e : EngineState) (allocOk : Bool) (proto : String) :
    EngineState × Option TContext × LuaRes :=
  match str2method proto with
  | Option.none => (e, Option.none, .normal [.nil, .str "invalid protocol"] 2)
  | some _ =>
    if allocOk then
      ({ allocCount := e.allocCount + 1 },
       some { context := some freshSSLCtx, mode := CtxMode.invalid },
       .normal [.userdata] 1)
    else
      (e, Option.none, .normal [.userdata, .nil, .str "error creating context"] 2)

/-- Translation of `set_verify_flag` (context.c lines 56-75): OR the bit
of a recognized token into the running flag, fail on anything else. -/
def set_verify_flag (str : String) (flag : Nat) : Option Nat :=
  if str = "none" then some (flag ||| SSL_VERIFY_NONE)
  else if str = "peer" then some (flag ||| SSL_VERIFY_PEER)
  else if str = "client_once" then some (flag ||| SSL_VERIFY_CLIENT_ONCE)
  else if str = "fail_if_no_peer_cert" then
    some (flag ||| SSL_VERIFY_FAIL_IF_NO_PEER_CERT)
  else Option.none

/-- The argument loop of `set_verify` (context.c lines 239-245): resolve
tokens left to right, stopping at the first unrecognized one. -/
def verify_loop (args : List String) (flag : Nat) : Option Nat :=
  match args with
  | [] => some flag
  | s :: rest =>
    match set_verify_flag s flag with
    | some f => verify_loop rest f
    | Option.none => Option.none

/-- Translation of `set_verify` (context.c lines 231-250). With no tokens
(`max == 1` in C) nothing is committed; otherwise all tokens are
resolved before the single `SSL_CTX_set_verify` commit, and the first
bad token aborts with the constant message "invalid verify option". -/
def set_verify (ctx : SSLCtx) (args : List String) : SSLCtx × LuaRes :=
  if args.isEmpty then (ctx, .normal [.boolean true] 1)
  else
    match verify_loop args 0 with
    | Option.none => (ctx, .normal [.boolean false, .str "invalid verify option"] 2)
    | some flag => (SSL_CTX_set_verify ctx flag, .normal [.boolean true] 1)

/-- Translation of `set_option_flag` (context.c lines 30-40), parameterised
by the `ssl_options` name-to-bit table from options.h: the first matching
entry ORs its code into the running flag. -/
def set_option_flag (table : List (String × Nat)) (opt : String) (flag : Nat) :
    Option Nat :=
  match table with
  | [] => Option.none
  | p :: rest => if opt = p.1 then some (flag ||| p.2) else set_option_flag rest opt flag

/-- Plain lookup in the option table (the bit a token denotes). -/
def optLookup (table : List (String × Nat)) (opt : String) : Option Nat :=
  match table with
  | [] => Option.none
  | p :: rest => if opt = p.1 then some p.2 else optLookup rest opt

/-- The argument loop of `set_options` (context.c lines 263-268). -/
def options_loop (table : List (String × Nat)) (args : List String) (flag : Nat) :
    Option Nat :=
  match args with
  | [] => some flag
  | s :: rest =>
    match set_option_flag table s flag with
    | some f => options_loop table rest f
    | Option.none => Option.none

/-- Translation of `set_options` (context.c lines 255-274): like
`set_verify` but committing through `SSL_CTX_set_options`, with the
constant failure message "invalid option". -/
def set_options (table : List (String × Nat)) (ctx : SSLCtx) (args : List String) :
    SSLCtx × LuaRes :=
  if args.isEmpty then (ctx, .normal [.boolean true] 1)
  else
    match options_loop table args 0 with
    | Option.none => (ctx, .normal [.boolean false, .str "invalid option"] 2)
    | some flag => (SSL_CTX_set_options ctx flag, .normal [.boolean true] 1)

/-- Translation of `set_mode` (context.c lines 279-296). Note the error
branch pushes a boolean false and the string "invalid mode" but the C
function returns 1, so only the topmost value reaches the caller. -/
def set_mode (c : TContext) (str : String) : TContext × LuaRes :=
  if str = "server" then ({ c with mode := CtxMode.server }, .normal [.boolean true] 1)
  else if str = "client" then ({ c with mode := CtxMode.client }, .normal [.boolean true] 1)
  else (c, .normal [.boolean false, .str "invalid mode"] 1)

/-- A vararg item passed to `set_session_cache_mode`: a Lua boolean, a Lua
string, or a value of any other Lua type. -/
inductive CacheArg where
  | boolean (b : Bool)
  | str (s : String)
  | other
deriving DecidableEq

/-- The string-token cases of `set_session_cache_mode` (context.c lines
348-374); an unmatched string falls through to the default branch. -/
def cache_mode_bit (s : String) : Option Nat :=
  if s = "off" then some SSL_SESS_CACHE_OFF
  else if s = "client" then some SSL_SESS_CACHE_CLIENT
  else if s = "server" then some SSL_SESS_CACHE_SERVER
  else if s = "both" then some SSL_SESS_CACHE_BOTH
  else if s = "no_auto_clear" then some SSL_SESS_CACHE_NO_AUTO_CLEAR
  else if s = "no_internal_lookup" then some SSL_SESS_CACHE_NO_INTERNAL_LOOKUP
  else if s = "no_internal_store" then some SSL_SESS_CACHE_NO_INTERNAL_STORE
  else if s = "no_internal" then some SSL_SESS_CACHE_NO_INTERNAL
  else Option.none

/-- The argument loop of `set_session_cache_mode` (context.c lines
339-378): booleans OR in BOTH or OFF; recognized strings OR in their
bit; anything else is a `luaL_argerror` raise. -/
def cache_loop (args : List CacheArg) (mode : Nat) : Except String Nat :=
  match args with
  | [] => .ok mode
  | CacheArg.boolean b :: rest =>
    cache_loop rest (mode ||| (if b then SSL_SESS_CACHE_BOTH else SSL_SESS_CACHE_OFF))
  | CacheArg.str s :: rest =>
    match cache_mode_bit s with
    | some bit => cache_loop rest (mode ||| bit)
    | Option.none => .error "unknown session cache mode"
  | CacheArg.other :: _ => .error "unknown session cache mode"

/-- Translation of `set_session_cache_mode` (context.c lines 332-382).
The commit `SSL_CTX_set_session_cache_mode(ctx, mode)` is unconditional
once the loop finishes, including with zero arguments (mode 0). A bad
argument raises through `luaL_argerror` instead of returning. -/
def set_session_cache_mode (ctx : SSLCtx) (args : List CacheArg) : SSLCtx × LuaRes :=
  match cache_loop args 0 with
  | .error m => (ctx, .raised m)
  | .ok mode => (SSL_CTX_set_session_cache_mode ctx mode, .normal [.boolean true] 1)

/-- The Lua type of `load_key`'s third argument as `lua_type(L, 3)` sees
it: `absent` is LUA_TNONE (no argument at all), distinct from LUA_TNIL. -/
inductive KeyArg where
  | absent
  | nil
  | strv (s : String)
  | func
  | other
deriving DecidableEq

/-- Translation of `load_key` (context.c lines 170-198). A string or
function argument installs the password callback before the engine call
and both paths uninstall it afterwards; an explicit nil skips the
install but shares the load/uninstall path. `engine` is the outcome of
the external `SSL_CTX_use_PrivateKey_file` call (`Option.none` means
success, `some reason` carries the engine diagnostic). Any other
argument type reaches the `default:` branch, which raises through
`lua_error` with "invalid callback value". -/
def load_key (c : SSLCtx) (filename : String) (arg3 : KeyArg) (engine : Option String) :
    SSLCtx × LuaRes :=
  match arg3 with
  | KeyArg.strv _ | KeyArg.func | KeyArg.nil =>
    match engine with
    | Option.none => ({ c with passwdCbSet := false }, .normal [.boolean true] 1)
    | some reason =>
      ({ c with passwdCbSet := false },
       .normal [.boolean false,
                .str ("error loading private key (" ++ reason ++ ")")] 2)
  | _ => (c, .raised "invalid callback value")

/-- Model of C `strncpy(buf, src, size)` on a fresh buffer of `size`
bytes: copies at most `size` characters and pads with NUL bytes when the
source is shorter (no terminator is added when it is not). -/
def strncpyBuf (src : List Char) (size : Nat) : List Char :=
  src.take size ++ List.replicate (size - src.length) (Char.ofNat 0)

/-- Model of C `strlen` on a buffer: characters before the first NUL. -/
def strlenBuf (buf : List Char) : Nat :=
  (buf.takeWhile (fun ch => ch != Char.ofNat 0)).length

/-- The copy-and-measure body of `passwd_cb` (context.c lines 90-93):
`strncpy(buf, s, size); buf[size-1] = 0; return strlen(buf);`. -/
def passwd_copy (s : String) (size : Nat) : Nat :=
  strlenBuf ((strncpyBuf s.data size).set (size - 1) (Char.ofNat 0))

/-- The Lua value at stack slot 3 as `passwd_cb` sees it: a function
(together with the result of calling it, `Option.none` when that result
is not a string), a string, or anything else. -/
inductive PasswdArg where
  | func (result : Option String)
  | strv (s : String)
  | other
deriving DecidableEq

/-- Translation of `passwd_cb` (context.c lines 80-96), returning the
byte count handed back to the engine. -/
def passwd_cb (arg : PasswdArg) (size : Nat) : Nat :=
  match arg with
  | PasswdArg.func Option.none => 0
  | PasswdArg.func (some s) => passwd_copy s size
  | PasswdArg.strv s => passwd_copy s size
  | PasswdArg.other => 0

/-- Translation of `meth_destroy` (context.c lines 485-493), threading a
counter of `SSL_CTX_free` calls to state release-at-most-once facts. -/
def meth_destroy (c : TContext) (freeCount : Nat) : TContext × Nat :=
  match c.context with
  | some _ => ({ c with context := Option.none }, freeCount + 1)
  | Option.none => (c, freeCount)

/-! Helper lemmas about the aggregation loops and the password buffer. -/

/-- Whether `set_verify_flag` recognizes a token does not depend on the
running flag value. -/
lemma set_verify_flag_none_iff (t : String) (f : Nat) :
    set_verify_flag t f = Option.none ↔ set_verify_flag t 0 = Option.none := by
  unfold set_verify_flag
  split_ifs <;> simp

/-- One unrecognized token anywhere makes the whole verify loop fail. -/
lemma verify_loop_none {args : List String} {t : String} (hmem : t ∈ args)
    (hbad : set_verify_flag t 0 = Option.none) (f : Nat) :
    verify_loop args f = Option.none := by
  induction args generalizing f with
  | nil => cases hmem
  | cons a rest ih =>
    rcases List.mem_cons.mp hmem with h | h
    · subst h
      have hb : set_verify_flag t f = Option.none := (set_verify_flag_none_iff t f).mpr hbad
      simp [verify_loop, hb]
    · simp only [verify_loop]
      cases hsv : set_verify_flag a f with
      | none => rfl
      | some g => exact ih h g

/-- `set_option_flag` is table lookup followed by OR into the running flag. -/
lemma set_option_flag_eq (table : List (String × Nat)) (opt : String) (flag : Nat) :
    set_option_flag table opt flag = (optLookup table opt).map (fun c => flag ||| c) := by
  induction table with
  | nil => rfl
  | cons p rest ih =>
    simp only [set_option_flag, optLookup]
    split_ifs <;> simp [ih]

/-- One unrecognized token anywhere makes the whole option loop fail. -/
lemma options_loop_none {table : List (String × Nat)} {args : List String} {t : String}
    (hmem : t ∈ args) (hbad : optLookup table t = Option.none) (f : Nat) :
    options_loop table args f = Option.none := by
  induction args generalizing f with
  | nil => cases hmem
  | cons a rest ih =>
    rcases List.mem_cons.mp hmem with h | h
    · subst h
      have hb : set_option_flag table t f = Option.none := by
        rw [set_option_flag_eq, hbad]; rfl
      simp [options_loop, hb]
    · simp only [options_loop]
      cases hsv : set_option_flag table a f with
      | none => rfl
      | some g => exact ih h g

/-- Inserting the token "none" (bit value 0) anywhere leaves the verify
loop's outcome unchanged. -/
lemma verify_loop_insert_none (ts1 ts2 : List String) (f : Nat) :
    verify_loop (ts1 ++ "none" :: ts2) f = verify_loop (ts1 ++ ts2) f := by
  induction ts1 generalizing f with
  | nil =>
    simp [verify_loop, set_verify_flag, SSL_VERIFY_NONE]
  | cons a rest ih =>
    simp only [List.cons_append, verify_loop]
    cases h : set_verify_flag a f with
    | none => rfl
    | some g => exact ih g

/-- What `strncpy` into a `size`-byte buffer followed by forcing a NUL at
index `size - 1` and taking `strlen` computes, for a NUL-free source. -/
lemma strlen_strncpy_set : ∀ (n : Nat) (l : List Char), 0 < n →
    (∀ ch ∈ l, ch ≠ Char.ofNat 0) →
    strlenBuf ((strncpyBuf l n).set (n - 1) (Char.ofNat 0)) = min l.length (n - 1) := by
  intro n
  induction n with
  | zero => intro l h; exact absurd h (by decide)
  | succ m ih =>
    intro l hpos hnonul
    cases l with
    | nil =>
      have hrep : ∀ (k j : Nat),
          (List.replicate k (Char.ofNat 0)).set j (Char.ofNat 0) =
            List.replicate k (Char.ofNat 0) := by
        intro k
        induction k with
        | zero => intro j; rfl
        | succ k ihk =>
          intro j
          cases j with
          | zero => simp [List.replicate_succ]
          | succ j => simp [List.replicate_succ, ihk]
      have hzer : ∀ (k : Nat), strlenBuf (List.replicate k (Char.ofNat 0)) = 0 := by
        intro k
        cases k with
        | zero => rfl
        | succ k => simp [strlenBuf, List.replicate_succ]
      simp [strncpyBuf, hrep, hzer]
    | cons a t =>
      cases m with
      | zero =>
        have h1 : strncpyBuf (a :: t) 1 = [a] := by
          simp [strncpyBuf]
        simp [h1, strlenBuf]
      | succ k =>
        have ha : a ≠ Char.ofNat 0 := hnonul a (List.mem_cons_self a t)
        have hcount : (k + 2) - (a :: t).length = (k + 1) - t.length := by
          simp [List.length_cons]
        have hstep : strncpyBuf (a :: t) (k + 2) = a :: strncpyBuf t (k + 1) := by
          show (a :: t).take (k + 2) ++
              List.replicate ((k + 2) - (a :: t).length) (Char.ofNat 0) =
            a :: strncpyBuf t (k + 1)
          rw [List.take_succ_cons, hcount]
          rfl
        have hset : (strncpyBuf (a :: t) (k + 2)).set (k + 2 - 1) (Char.ofNat 0) =
            a :: (strncpyBuf t (k + 1)).set (k + 1 - 1) (Char.ofNat 0) := by
          rw [hstep]
          rfl
        have hih := ih t (Nat.succ_pos k)
          (fun ch hch => hnonul ch (List.mem_cons_of_mem a hch))
        rw [hset]
        have hcons : strlenBuf (a :: (strncpyBuf t (k + 1)).set (k + 1 - 1) (Char.ofNat 0)) =
            1 + strlenBuf ((strncpyBuf t (k + 1)).set (k + 1 - 1) (Char.ofNat 0)) := by
          have hpa : (a != Char.ofNat 0) = true := by
            simpa using ha
          simp [strlenBuf, hpa]
          omega
        rw [hcons, hih]
        simp [List.length_cons]
        omega

/-- The body of `passwd_cb` for a stored password string returns
`min (length) (capacity - 1)`: one byte is reserved for the forced NUL. -/
lemma passwd_copy_eq (s : String) (size : Nat) (hpos : 0 < size)
    (hnonul : ∀ ch ∈ s.data, ch ≠ Char.ofNat 0) :
    passwd_copy s size = min s.length (size - 1) := by
  have h := strlen_strncpy_set size s.data hpos hnonul
  exact h

/-! Claim theorems. -/

/-- C1 counterexample: `set_verify` on ["peer", "bogus"] does fail
atomically, but with the constant message "invalid verify option" in
which the offending token "bogus" does not occur, so the error does not
identify the bad token as the claim requires. -/
theorem c1_counterexample :
    set_verify freshSSLCtx ["peer", "bogus"] =
      (freshSSLCtx, .normal [.boolean false, .str "invalid verify option"] 2) ∧
    ¬ List.IsInfix "bogus".data "invalid verify option".data := by
  exact ⟨rfl, by decide⟩

/-- C1 (amended): for every token sequence containing an unrecognized
token, `set_verify` (resp. `set_options`) fails atomically — the engine
state is exactly what it was before the call — returning false together
with the constant message "invalid verify option" (resp. "invalid
option"), which does not name the offending token. -/
theorem c1_amended (ctx : SSLCtx) (table : List (String × Nat))
    (vargs oargs : List String) (u v : String)
    (hu : u ∈ vargs) (hbadu : set_verify_flag u 0 = Option.none)
    (hv : v ∈ oargs) (hbadv : optLookup table v = Option.none) :
    set_verify ctx vargs = (ctx, .normal [.boolean false, .str "invalid verify option"] 2) ∧
    set_options table ctx oargs = (ctx, .normal [.boolean false, .str "invalid option"] 2) := by
  constructor
  · have h1 : verify_loop vargs 0 = Option.none := verify_loop_none hu hbadu 0
    cases vargs with
    | nil => cases hu
    | cons a rest => simp [set_verify, h1]
  · have h2 : options_loop table oargs 0 = Option.none := options_loop_none hv hbadv 0
    cases oargs with
    | nil => cases hv
    | cons a rest => simp [set_options, h2]

/-- C1 witness: the amended atomic-failure theorem at concrete inputs. -/
theorem c1_amended_witness :
    set_verify freshSSLCtx ["peer", "bogus"] =
      (freshSSLCtx, .normal [.boolean false, .str "invalid verify option"] 2) ∧
    set_options [("no_sslv2", 16777216)] freshSSLCtx ["nah"] =
      (freshSSLCtx, .normal [.boolean false, .str "invalid option"] 2) :=
  c1_amended freshSSLCtx [("no_sslv2", 16777216)] ["peer", "bogus"] ["nah"]
    "bogus" "nah" (by decide) (by decide) (by decide) (by decide)

/-- C2 counterexample: `set_session_cache_mode` with an empty token
sequence commits mode 0 unconditionally, so on a context whose cache
mode is the engine default `SSL_SESS_CACHE_SERVER` it changes the
committed flag state instead of being a no-op. -/
theorem c2_counterexample :
    set_session_cache_mode freshSSLCtx [] =
      ({ freshSSLCtx with sessionCacheMode := 0 }, .normal [.boolean true] 1) ∧
    ({ freshSSLCtx with sessionCacheMode := 0 } : SSLCtx) ≠ freshSSLCtx := by
  exact ⟨rfl, by decide⟩

/-- C2 (amended): an empty token sequence is a state-preserving success
for `set_verify` and `set_options`, but `set_session_cache_mode` with an
empty sequence succeeds while unconditionally committing mode 0
(`SSL_SESS_CACHE_OFF`), resetting the session cache mode. -/
theorem c2_amended (ctx : SSLCtx) (table : List (String × Nat)) :
    set_verify ctx [] = (ctx, .normal [.boolean true] 1) ∧
    set_options table ctx [] = (ctx, .normal [.boolean true] 1) ∧
    set_session_cache_mode ctx [] =
      ({ ctx with sessionCacheMode := SSL_SESS_CACHE_OFF }, .normal [.boolean true] 1) :=
  ⟨rfl, rfl, rfl⟩

/-- C3 counterexample: `load_key` with an absent password argument
(`lua_type` sees LUA_TNONE, which is none of the handled cases) raises
"invalid callback value" even when the engine would accept the key, so
the call does not succeed as the claim states. -/
theorem c3_counterexample :
    load_key freshSSLCtx "key.pem" KeyArg.absent Option.none =
      (freshSSLCtx, .raised "invalid callback value") ∧
    (load_key freshSSLCtx "key.pem" KeyArg.absent Option.none).2 ≠
      .normal [.boolean true] 1 := by
  exact ⟨rfl, by decide⟩

/-- C3 (amended): only an explicit nil password argument resolves to the
no-password strategy — with it an unencrypted key loads successfully —
while an absent third argument always raises "invalid callback value"
before any engine call. -/
theorem c3_amended (c : SSLCtx) (f : String) :
    load_key c f KeyArg.nil Option.none =
      ({ c with passwdCbSet := false }, .normal [.boolean true] 1) ∧
    (∀ eng, load_key c f KeyArg.absent eng = (c, .raised "invalid callback value")) :=
  ⟨rfl, fun _ => rfl⟩

/-- C4: `create` on each of "sslv3", "tlsv1", "sslv23" yields a fresh
handle whose mode is MD_CTX_INVALID (Unset); on any other string it
fails with "invalid protocol", leaves the engine allocation state
untouched and produces no handle. -/
theorem c4_create (e : EngineState) (s : String) (allocOk : Bool)
    (h1 : s ≠ "sslv3") (h2 : s ≠ "tlsv1") (h3 : s ≠ "sslv23") :
    ((create e true "sslv3").2.1 =
        some { context := some freshSSLCtx, mode := CtxMode.invalid } ∧
     (create e true "tlsv1").2.1 =
        some { context := some freshSSLCtx, mode := CtxMode.invalid } ∧
     (create e true "sslv23").2.1 =
        some { context := some freshSSLCtx, mode := CtxMode.invalid }) ∧
    create e allocOk s = (e, Option.none, .normal [.nil, .str "invalid protocol"] 2) := by
  refine ⟨⟨rfl, rfl, rfl⟩, ?_⟩
  have hm : str2method s = Option.none := by simp [str2method, h1, h2, h3]
  simp [create, hm]

/-- C4 witness: the create theorem at the unrecognized string "tlsv1.2". -/
theorem c4_create_witness :
    ((create { allocCount := 0 } true "sslv3").2.1 =
        some { context := some freshSSLCtx, mode := CtxMode.invalid } ∧
     (create { allocCount := 0 } true "tlsv1").2.1 =
        some { context := some freshSSLCtx, mode := CtxMode.invalid } ∧
     (create { allocCount := 0 } true "sslv23").2.1 =
        some { context := some freshSSLCtx, mode := CtxMode.invalid }) ∧
    create { allocCount := 0 } false "tlsv1.2" =
      ({ allocCount := 0 }, Option.none, .normal [.nil, .str "invalid protocol"] 2) :=
  c4_create { allocCount := 0 } "tlsv1.2" false (by decide) (by decide) (by decide)

/-- C5 counterexample: `set_session_cache_mode` with an unrecognized
token raises a Lua error through `luaL_argerror` — the caller receives
no returned values at all — rather than returning a discriminated error
result as the claim states. -/
theorem c5_counterexample :
    set_session_cache_mode freshSSLCtx [CacheArg.str "bogus"] =
      (freshSSLCtx, .raised "unknown session cache mode") ∧
    (set_session_cache_mode freshSSLCtx [CacheArg.str "bogus"]).2.retVals = Option.none := by
  exact ⟨rfl, rfl⟩

/-- C5 (amended): failures of `set_verify`, `set_options` and `set_mode`
are returned to the caller as result values, but `set_session_cache_mode`
with a bad token and `load_key` with a password argument of an unhandled
kind raise (catchable, non-fatal) Lua errors instead of returning. -/
theorem c5_amended (ctx : SSLCtx) (h : TContext) (table : List (String × Nat))
    (vargs oargs : List String) (u v s : String) (c : SSLCtx) (f : String)
    (eng : Option String) (cargs : List CacheArg) (m : String)
    (hu : u ∈ vargs) (hbadu : set_verify_flag u 0 = Option.none)
    (hv : v ∈ oargs) (hbadv : optLookup table v = Option.none)
    (hs1 : s ≠ "server") (hs2 : s ≠ "client")
    (hc : cache_loop cargs 0 = Except.error m) :
    (set_verify ctx vargs).2 = .normal [.boolean false, .str "invalid verify option"] 2 ∧
    (set_options table ctx oargs).2 = .normal [.boolean false, .str "invalid option"] 2 ∧
    set_mode h s = (h, .normal [.boolean false, .str "invalid mode"] 1) ∧
    set_session_cache_mode ctx cargs = (ctx, .raised m) ∧
    load_key c f KeyArg.other eng = (c, .raised "invalid callback value") := by
  refine ⟨?_, ?_, ?_, ?_, rfl⟩
  · have h1 : verify_loop vargs 0 = Option.none := verify_loop_none hu hbadu 0
    cases vargs with
    | nil => cases hu
    | cons a rest => simp [set_verify, h1]
  · have h2 : options_loop table oargs 0 = Option.none := options_loop_none hv hbadv 0
    cases oargs with
    | nil => cases hv
    | cons a rest => simp [set_options, h2]
  · simp [set_mode, hs1, hs2]
  · simp [set_session_cache_mode, hc]

/-- C5 witness: the amended error-channel theorem at concrete inputs. -/
theorem c5_amended_witness :
    (set_verify freshSSLCtx ["what"]).2 =
      .normal [.boolean false, .str "invalid verify option"] 2 ∧
    (set_options [("no_sslv2", 16777216)] freshSSLCtx ["nah"]).2 =
      .normal [.boolean false, .str "invalid option"] 2 ∧
    set_mode { context := some freshSSLCtx, mode := CtxMode.invalid } "oops" =
      ({ context := some freshSSLCtx, mode := CtxMode.invalid },
       .normal [.boolean false, .str "invalid mode"] 1) ∧
    set_session_cache_mode freshSSLCtx [CacheArg.other] =
      (freshSSLCtx, .raised "unknown session cache mode") ∧
    load_key freshSSLCtx "k.pem" KeyArg.other Option.none =
      (freshSSLCtx, .raised "invalid callback value") :=
  c5_amended freshSSLCtx { context := some freshSSLCtx, mode := CtxMode.invalid }
    [("no_sslv2", 16777216)] ["what"] ["nah"] "what" "nah" "oops" freshSSLCtx "k.pem"
    Option.none [CacheArg.other] "unknown session cache mode"
    (by decide) (by decide) (by decide) (by decide) (by decide) (by decide) rfl

/-- C6: at the failing input "bogus", `set_mode` pushes the failure flag
and the message "invalid mode" but returns count 1, so the caller
receives only the single (truthy) string "invalid mode" — not the
failure flag together with the message; the handle's mode is unchanged. -/
theorem c6_failing_input_eval :
    set_mode { context := some freshSSLCtx, mode := CtxMode.invalid } "bogus" =
      ({ context := some freshSSLCtx, mode := CtxMode.invalid },
       .normal [.boolean false, .str "invalid mode"] 1) ∧
    (set_mode { context := some freshSSLCtx, mode := CtxMode.invalid } "bogus").2.retVals =
      some [.str "invalid mode"] ∧
    (set_mode { context := some freshSSLCtx, mode := CtxMode.invalid } "bogus").2.retVals ≠
      some [.boolean false, .str "invalid mode"] := by
  exact ⟨rfl, rfl, by decide⟩

/-- C7: the first destroy on a live handle frees the engine context
exactly once and nulls the local pointer; a destroy on an already-freed
handle is a no-op that frees nothing; destroy is idempotent on any
handle. -/
theorem c7_destroy_idempotent (sctx : SSLCtx) (m : CtxMode) (f : Nat) (c : TContext) :
    meth_destroy { context := some sctx, mode := m } f =
      ({ context := Option.none, mode := m }, f + 1) ∧
    meth_destroy { context := Option.none, mode := m } (f + 1) =
      ({ context := Option.none, mode := m }, f + 1) ∧
    meth_destroy (meth_destroy c f).1 (meth_destroy c f).2 = meth_destroy c f := by
  refine ⟨rfl, rfl, ?_⟩
  cases hc : c.context <;> simp [meth_destroy, hc]

/-- C8: committing two valid option tokens in one `set_options` call and
committing them in two successive calls produce the same cumulative
option bitmask, because the engine ORs each committed mask into the
existing bits. -/
theorem c8_options_cumulative (table : List (String × Nat)) (ctx : SSLCtx)
    (a b : String) (ca cb : Nat)
    (ha : optLookup table a = some ca) (hb : optLookup table b = some cb) :
    (set_options table (set_options table ctx [a]).1 [b]).1.options =
      (set_options table ctx [a, b]).1.options := by
  have hfa : ∀ f, set_option_flag table a f = some (f ||| ca) := fun f => by
    rw [set_option_flag_eq, ha]; rfl
  have hfb : ∀ f, set_option_flag table b f = some (f ||| cb) := fun f => by
    rw [set_option_flag_eq, hb]; rfl
  simp [set_options, options_loop, hfa, hfb, SSL_CTX_set_options, Nat.zero_or, Nat.or_assoc]

/-- C8 witness: the cumulative-options theorem on a concrete two-entry
option table. -/
theorem c8_options_cumulative_witness :
    (set_options [("no_sslv2", 16777216), ("no_sslv3", 33554432)]
        (set_options [("no_sslv2", 16777216), ("no_sslv3", 33554432)]
          freshSSLCtx ["no_sslv2"]).1 ["no_sslv3"]).1.options =
      (set_options [("no_sslv2", 16777216), ("no_sslv3", 33554432)] freshSSLCtx
        ["no_sslv2", "no_sslv3"]).1.options :=
  c8_options_cumulative [("no_sslv2", 16777216), ("no_sslv3", 33554432)] freshSSLCtx
    "no_sslv2" "no_sslv3" 16777216 33554432 (by decide) (by decide)

/-- C9 counterexample: a 5-character password with a 5-byte engine buffer
yields 4 copied characters, not min(5, 5) = 5: the hook forces a NUL
into the last buffer byte before measuring. -/
theorem c9_counterexample :
    passwd_cb (PasswdArg.strv "abcde") 5 = 4 ∧
    passwd_cb (PasswdArg.strv "abcde") 5 ≠ min "abcde".length 5 := by
  exact ⟨rfl, by decide⟩

/-- C9 (amended): under the static-password strategy, for every NUL-free
password of length L and buffer capacity size > 0 the hook returns
min(L, size - 1): the copy is truncated with one byte reserved for the
forced NUL terminator. -/
theorem c9_amended (s : String) (size : Nat) (hpos : 0 < size)
    (hnonul : ∀ ch ∈ s.data, ch ≠ Char.ofNat 0) :
    passwd_cb (PasswdArg.strv s) size = min s.length (size - 1) :=
  passwd_copy_eq s size hpos hnonul

/-- C9 witness: the truncation theorem at password "secret", size 32. -/
theorem c9_amended_witness :
    passwd_cb (PasswdArg.strv "secret") 32 = min "secret".length (32 - 1) :=
  c9_amended "secret" 32 (by decide) (by decide)

/-- C10 counterexample: for the accepted empty token sequence, inserting
"none" is observable — `set_verify` with ["none"] commits mask 0 to the
engine while the empty call commits nothing, so a context whose verify
mode was SSL_VERIFY_PEER ends in different states although both calls
succeed. -/
theorem c10_counterexample :
    (set_verify { freshSSLCtx with verifyMode := SSL_VERIFY_PEER } []).1.verifyMode =
      SSL_VERIFY_PEER ∧
    (set_verify { freshSSLCtx with verifyMode := SSL_VERIFY_PEER } ["none"]).1.verifyMode = 0 ∧
    (set_verify { freshSSLCtx with verifyMode := SSL_VERIFY_PEER } []).2 =
      .normal [.boolean true] 1 ∧
    (set_verify { freshSSLCtx with verifyMode := SSL_VERIFY_PEER } ["none"]).2 =
      .normal [.boolean true] 1 := by
  exact ⟨rfl, rfl, rfl, rfl⟩

/-- C10 (amended): for every nonempty token sequence accepted by
`set_verify`, inserting "none" anywhere yields exactly the same result
and committed engine state, since the token's bit value is zero. -/
theorem c10_amended (ctx : SSLCtx) (ts1 ts2 : List String) (flag : Nat)
    (hacc : verify_loop (ts1 ++ ts2) 0 = some flag) (hne : ts1 ++ ts2 ≠ []) :
    set_verify ctx (ts1 ++ "none" :: ts2) = set_verify ctx (ts1 ++ ts2) := by
  have hloop := verify_loop_insert_none ts1 ts2 0
  have h1 : (ts1 ++ "none" :: ts2).isEmpty = false := by
    cases ts1 <;> rfl
  have h2 : (ts1 ++ ts2).isEmpty = false := by
    cases h : ts1 ++ ts2 with
    | nil => exact absurd h hne
    | cons a rest => rfl
  simp [set_verify, h1, h2, hloop]

/-- C10 witness: inserting "none" before "peer" commits the same state. -/
theorem c10_amended_witness :
    set_verify freshSSLCtx ([] ++ "none" :: ["peer"]) =
      set_verify freshSSLCtx ([] ++ ["peer"]) :=
  c10_amended freshSSLCtx [] ["peer"] 1 (by decide) (by decide)

end LuaSecContext
